import Mathlib

/-!
Verification of the course-recommender core (course_recommender/recommender.py,
services.py, data_loading.py) against its specification.

The Python code is shallowly embedded: course dictionaries become the
`Course` structure, numpy row vectors become `List ℚ`, the course feature
matrix becomes `List (List ℚ)` (one row per course, catalog order), floats
are idealised as rationals, and raised `ValueError`s become the `RecError`
type inside `Except`.  The cosine-similarity kernel evaluated at
recommender.py line 143 is scikit-learn library code external to the
repository; it is modelled as an explicit function argument
`cos : List ℚ → List ℚ → ℚ` that is applied to the student vector and every
matrix row, exactly as the batched sklearn call does.  Likewise the fitted
TF-IDF transform (features.py `transform_text`) is carried as a function
field of `Vectorizer`, matching the way `build_student_profile_vector`
receives the vectorizer as an argument.
-/

/-- A course dictionary as produced by db_utils._course_orm_to_dict and
consumed by the recommender (keys course_id, course_name, credits, tags,
prerequisites, description, difficulty, workload, type). -/
structure Course where
  course_id : String
  course_name : String
  credits : Int
  tags : List String
  prerequisites : List String
  description : String
  difficulty : Int
  workload : Int
  type : String
deriving DecidableEq, Repr

/-- A result dictionary emitted by recommend_courses (recommender.py
lines 165-174). -/
structure ResultItem where
  course_id : String
  course_name : String
  difficulty : Int
  type : String
  score : ℚ
  missing_prereqs : List String
deriving DecidableEq, Repr

/-- The failures raised inside the pipeline.  Both are raised as Python
`ValueError`s: recommender.py line 72 (no profile signal, the spec's
InvalidQuery) and services.py line 75 (unknown completed ids, the spec's
UnknownCourseError); the payload of the second is the list of offending
ids interpolated into the message. -/
inductive RecError where
  | invalidQuery : RecError
  | unknownCourse (ids : List String) : RecError
deriving DecidableEq, Repr

/-- The Python exception class under which each failure is raised.  In the
source both failures are plain `ValueError`s. -/
def RecError.pyClass : RecError → String
  | RecError.invalidQuery => "ValueError"
  | RecError.unknownCourse _ => "ValueError"

/-- Python repr of a string (single quotes), used when a list of ids is
interpolated into an f-string. -/
def pyStrRepr (s : String) : String := "\x27" ++ s ++ "\x27"

/-- Python repr of a list of strings, as interpolated by
`f"Unknown completed course_ids: {unknown}"` in services.py line 75. -/
def pyListRepr (ids : List String) : String :=
  "[" ++ String.intercalate ", " (ids.map pyStrRepr) ++ "]"

/-- The message of the ValueError raised at recommender.py line 72. -/
def invalid_query_message : String :=
  "Cannot build student profile: no completed courses or interest tags."

/-- The message of the ValueError raised at services.py line 75. -/
def unknown_courses_message (ids : List String) : String :=
  "Unknown completed course_ids: " ++ pyListRepr ids

/-- The message carried by each failure. -/
def RecError.message : RecError → String
  | RecError.invalidQuery => invalid_query_message
  | RecError.unknownCourse ids => unknown_courses_message ids

/-- The fitted vectorizer (features.py CourseVectorizer).  Its
`transform_text` maps a text to its row vector in the fitted feature
space; the TF-IDF computation itself is scikit-learn library code, so the
transform is carried as a function, exactly as the Python code passes the
vectorizer object around. -/
structure Vectorizer where
  transform_text : String → List ℚ

/-- Element-wise sum of two row vectors (numpy +). -/
def vecAdd (u v : List ℚ) : List ℚ := List.zipWith (· + ·) u v

/-- Scalar multiple of a row vector. -/
def vecSmul (c : ℚ) (v : List ℚ) : List ℚ := v.map (fun a => c * a)

/-- numpy `mean(axis=0)` over a stack of row vectors: the element-wise sum
divided by the number of rows (used at recommender.py lines 39 and 76). -/
def rowsMean : List (List ℚ) → List ℚ
  | [] => []
  | r :: rs => vecSmul (1 / ((rs.length + 1 : Nat) : ℚ)) (rs.foldl vecAdd r)

/-- Python `" ".join(interest_tags)` (recommender.py line 49). -/
def joinSpace (tags : List String) : String := String.intercalate " " tags

/-- The history component of the profile (recommender.py lines 31-45):
resolve the completed ids through id_to_index, keeping the order and the
multiplicity of the resolvable ones, and average the corresponding matrix
rows. -/
def history_component (course_matrix : List (List ℚ))
    (id_to_index : String → Option Nat) (completed_course_ids : List String) :
    List ℚ :=
  rowsMean ((completed_course_ids.filterMap id_to_index).map
    (fun idx => course_matrix.getD idx []))

/-- The interest component of the profile (recommender.py lines 48-68):
join the tags with spaces and project through the fitted transform. -/
def interest_component (vectorizer : Vectorizer) (interest_tags : List String) :
    List ℚ :=
  vectorizer.transform_text (joinSpace interest_tags)

/-- build_student_profile_vector (recommender.py lines 10-78).  Collects
the history component (when at least one completed id resolves) and the
interest component (when interest_tags is non-empty), raises
ValueError — the spec's InvalidQuery — when neither exists, and otherwise
returns the element-wise mean of the collected components. -/
def build_student_profile_vector (course_matrix : List (List ℚ))
    (id_to_index : String → Option Nat) (completed_course_ids : List String)
    (interest_tags : List String) (vectorizer : Vectorizer) :
    Except RecError (List ℚ) :=
  let components : List (List ℚ) :=
    (if completed_course_ids.filterMap id_to_index = [] then []
     else [history_component course_matrix id_to_index completed_course_ids]) ++
    (if interest_tags = [] then []
     else [interest_component vectorizer interest_tags])
  if components = [] then Except.error RecError.invalidQuery
  else Except.ok (rowsMean components)

/-- Model of the function _get_missing_prereqs (recommender.py lines
81-87): the prerequisites of the course that are not members of the
completed list, in declared order. -/
def getMissingPrereqs (course : Course) (completed_course_ids : List String) :
    List String :=
  course.prerequisites.filter (fun p => decide (p ∉ completed_course_ids))

/-- Model of the function _difficulty_weight (recommender.py lines
90-104).  Python's `if not preferred` treats both None and the empty
string as "no preference". -/
def difficulty_weight (difficulty : Int) (preferred : Option String) : ℚ :=
  match preferred with
  | none => 1
  | some p =>
    if p = "" then 1
    else if p = "easy" then (if difficulty ≤ 2 then 11/10 else 9/10)
    else if p = "medium" then (if 2 ≤ difficulty ∧ difficulty ≤ 4 then 11/10 else 9/10)
    else if p = "hard" then (if 4 ≤ difficulty then 11/10 else 9/10)
    else 1

/-- The similarity row `sims = cosine_similarity(student_vec, course_matrix)[0]`
(recommender.py line 143): the kernel `cos` applied to the student vector
and every matrix row, read off by row index. -/
def sims_row (cos : List ℚ → List ℚ → ℚ) (student_vec : List ℚ)
    (course_matrix : List (List ℚ)) : Nat → ℚ :=
  fun idx => (course_matrix.map (cos student_vec)).getD idx 0

/-- The candidate loop of recommend_courses (recommender.py lines
145-174): walk the catalog with its enumeration index, skip completed
courses, skip courses with missing prerequisites unless future courses
are allowed, and emit a result item scored by `sims idx * weight`. -/
def candidate_items (sims : Nat → ℚ) (completed_course_ids : List String)
    (allow_future_courses : Bool) (preferred_difficulty : Option String) :
    List Course → Nat → List ResultItem
  | [], _ => []
  | course :: rest, idx =>
    let tail := candidate_items sims completed_course_ids allow_future_courses
      preferred_difficulty rest (idx + 1)
    if course.course_id ∈ completed_course_ids then tail
    else
      let missing_prereqs := getMissingPrereqs course completed_course_ids
      if allow_future_courses = false ∧ missing_prereqs ≠ [] then tail
      else
        { course_id := course.course_id
          course_name := course.course_name
          difficulty := course.difficulty
          type := course.type
          score := sims idx * difficulty_weight course.difficulty preferred_difficulty
          missing_prereqs := missing_prereqs } :: tail

/-- The comparison used by `candidates.sort(key=lambda x: x["score"],
reverse=True)` (recommender.py line 177): descending by score; a stable
sort under this relation keeps equal-score items in arrival order,
exactly as CPython's stable `list.sort` with `reverse=True` does. -/
def score_desc (a b : ResultItem) : Bool := decide (b.score ≤ a.score)

/-- The eligible candidate list of a recommend_courses call, in catalog
order (the `candidates` variable at recommender.py line 146-174). -/
def eligible_candidates (cos : List ℚ → List ℚ → ℚ)
    (course_matrix : List (List ℚ)) (student_vec : List ℚ)
    (courses : List Course) (completed_course_ids : List String)
    (allow_future_courses : Bool) (preferred_difficulty : Option String) :
    List ResultItem :=
  candidate_items (sims_row cos student_vec course_matrix) completed_course_ids
    allow_future_courses preferred_difficulty courses 0

/-- The candidate list after the stable descending sort of
recommender.py line 177. -/
def ranked_candidates (cos : List ℚ → List ℚ → ℚ)
    (course_matrix : List (List ℚ)) (student_vec : List ℚ)
    (courses : List Course) (completed_course_ids : List String)
    (allow_future_courses : Bool) (preferred_difficulty : Option String) :
    List ResultItem :=
  (eligible_candidates cos course_matrix student_vec courses
    completed_course_ids allow_future_courses preferred_difficulty).mergeSort
    score_desc

/-- Python list slicing `l[:k]` for an integer bound: a non-negative `k`
keeps the first `k` items, a negative `k` drops the last `|k|` items. -/
def pyTake (k : Int) (l : List α) : List α :=
  if 0 ≤ k then l.take k.toNat else l.take (l.length - (-k).toNat)

/-- recommend_courses (recommender.py lines 107-178).  The id_to_index
argument is accepted but never read, exactly as in the source. -/
def recommend_courses (cos : List ℚ → List ℚ → ℚ)
    (course_matrix : List (List ℚ)) (student_vec : List ℚ)
    (courses : List Course) (id_to_index : String → Option Nat)
    (completed_course_ids : List String) (top_k : Int)
    (allow_future_courses : Bool) (preferred_difficulty : Option String) :
    List ResultItem :=
  pyTake top_k (ranked_candidates cos course_matrix student_vec courses
    completed_course_ids allow_future_courses preferred_difficulty)

/-- Helper for build_id_index_map: index of the last course with the given
id, offset by the running position (a Python dict comprehension keeps the
last binding for a repeated key). -/
def idIndexAux (cid : String) : List Course → Nat → Option Nat
  | [], _ => none
  | c :: rest, i =>
    match idIndexAux cid rest (i + 1) with
    | some j => some j
    | none => if c.course_id = cid then some i else none

/-- build_id_index_map (data_loading.py lines 37-41): course_id → row
index of the feature matrix. -/
def build_id_index_map (courses : List Course) : String → Option Nat :=
  fun cid => idIndexAux cid courses 0

/-- The state a RecommenderService owns after __init__ (services.py lines
24-43): the catalog, the fitted course matrix and the fitted vectorizer.
Its id index is derived from the catalog exactly as __init__ does. -/
structure ServiceState where
  courses : List Course
  course_matrix : List (List ℚ)
  vectorizer : Vectorizer

/-- The id_to_index mapping built in __init__ (services.py line 38). -/
def ServiceState.id_to_index (st : ServiceState) : String → Option Nat :=
  build_id_index_map st.courses

/-- RecommenderService.recommend (services.py lines 60-96): reject unknown
completed ids first, then build the student vector, then score. -/
def service_recommend (cos : List ℚ → List ℚ → ℚ) (st : ServiceState)
    (completed_courses : List String) (interest_tags : List String)
    (preferred_difficulty : Option String) (allow_future_courses : Bool)
    (top_k : Int) : Except RecError (List ResultItem) :=
  let unknown := completed_courses.filter
    (fun cid => (st.id_to_index cid).isNone)
  if unknown ≠ [] then Except.error (RecError.unknownCourse unknown)
  else
    match build_student_profile_vector st.course_matrix st.id_to_index
        completed_courses interest_tags st.vectorizer with
    | Except.error e => Except.error e
    | Except.ok student_vec =>
        Except.ok (recommend_courses cos st.course_matrix student_vec
          st.courses st.id_to_index completed_courses top_k
          allow_future_courses preferred_difficulty)

/-! Concrete fixtures, taken from tests/test_recommender_basic.py (the
credits field is not present in the fixtures and is irrelevant to the
recommender; it is set to 3). -/

/-- Test fixture course CS101. -/
def cs101 : Course :=
  { course_id := "CS101", course_name := "Intro to CS", credits := 3,
    tags := ["cs", "intro"], prerequisites := [],
    description := "intro programming basics", difficulty := 1,
    workload := 2, type := "major" }

/-- Test fixture course CS102. -/
def cs102 : Course :=
  { course_id := "CS102", course_name := "Data Structures", credits := 3,
    tags := ["cs", "data"], prerequisites := ["CS101"],
    description := "data structures and algorithms", difficulty := 3,
    workload := 3, type := "major" }

/-- Test fixture course CS201. -/
def cs201 : Course :=
  { course_id := "CS201", course_name := "Algorithms", credits := 3,
    tags := ["cs", "algorithms"], prerequisites := ["CS102"],
    description := "advanced algorithms and complexity", difficulty := 4,
    workload := 4, type := "major" }

/-- The three-course test catalog. -/
def sampleCourses : List Course := [cs101, cs102, cs201]

/-- The 3 x 2 course matrix of the test fixture. -/
def sampleMatrix : List (List ℚ) := [[1, 1/2], [4/5, 9/10], [3/10, 6/5]]

/-- A concrete similarity kernel for witnesses: the dot product (the
claims quantify over the kernel, so any concrete choice will do). -/
def dotProduct (u v : List ℚ) : ℚ := (List.zipWith (· * ·) u v).foldl (· + ·) 0

/-- A concrete fitted transform of width 2 for witnesses. -/
def sampleVectorizer : Vectorizer := { transform_text := fun _ => [1/2, 1/2] }

/-- A concrete service state over the test catalog. -/
def sampleState : ServiceState :=
  { courses := sampleCourses, course_matrix := sampleMatrix,
    vectorizer := sampleVectorizer }

/-- A concrete student vector for witnesses. -/
def sampleStudentVec : List ℚ := [1, 0]

/-! Helper lemmas. -/

lemma score_desc_trans (a b c : ResultItem) (h1 : score_desc a b)
    (h2 : score_desc b c) : score_desc a c := by
  simp only [score_desc, decide_eq_true_eq] at h1 h2 ⊢
  exact le_trans h2 h1

lemma score_desc_total (a b : ResultItem) : score_desc a b || score_desc b a := by
  simp only [score_desc, Bool.or_eq_true, decide_eq_true_eq]
  exact le_total b.score a.score

lemma pyTake_sublist (k : Int) (l : List α) : (pyTake k l).Sublist l := by
  unfold pyTake
  split
  · exact List.take_sublist _ _
  · exact List.take_sublist _ _

lemma mem_of_mem_recommend {cos matrix sv courses id2i completed k allow pref}
    {item : ResultItem}
    (h : item ∈ recommend_courses cos matrix sv courses id2i completed k allow pref) :
    item ∈ eligible_candidates cos matrix sv courses completed allow pref := by
  have h1 : item ∈ ranked_candidates cos matrix sv courses completed allow pref :=
    (pyTake_sublist _ _).subset h
  exact List.mem_mergeSort.mp h1

lemma mem_candidate_items {sims : Nat → ℚ} {completed : List String}
    {allow : Bool} {pref : Option String} :
    ∀ (courses : List Course) (i0 : Nat) (item : ResultItem),
    item ∈ candidate_items sims completed allow pref courses i0 →
    ∃ j c, courses.get? j = some c ∧
      item.course_id = c.course_id ∧ item.course_name = c.course_name ∧
      item.difficulty = c.difficulty ∧ item.type = c.type ∧
      item.score = sims (i0 + j) * difficulty_weight c.difficulty pref ∧
      item.missing_prereqs = getMissingPrereqs c completed ∧
      c.course_id ∉ completed ∧
      (allow = false → getMissingPrereqs c completed = []) := by
  intro courses
  induction courses with
  | nil => intro i0 item h; simp [candidate_items] at h
  | cons course rest ih =>
    intro i0 item h
    have tail_case : item ∈ candidate_items sims completed allow pref rest (i0 + 1) →
        ∃ j c, (course :: rest).get? j = some c ∧
          item.course_id = c.course_id ∧ item.course_name = c.course_name ∧
          item.difficulty = c.difficulty ∧ item.type = c.type ∧
          item.score = sims (i0 + j) * difficulty_weight c.difficulty pref ∧
          item.missing_prereqs = getMissingPrereqs c completed ∧
          c.course_id ∉ completed ∧
          (allow = false → getMissingPrereqs c completed = []) := by
      intro ht
      obtain ⟨j, c, hj, hrest⟩ := ih (i0 + 1) item ht
      refine ⟨j + 1, c, by simpa using hj, ?_⟩
      have : i0 + 1 + j = i0 + (j + 1) := by omega
      rw [this] at hrest
      exact hrest
    rw [candidate_items] at h
    by_cases h1 : course.course_id ∈ completed
    · rw [if_pos h1] at h
      exact tail_case h
    · rw [if_neg h1] at h
      by_cases h2 : allow = false ∧ getMissingPrereqs course completed ≠ []
      · rw [if_pos h2] at h
        exact tail_case h
      · rw [if_neg h2] at h
        rcases List.mem_cons.mp h with heq | htail
        · refine ⟨0, course, rfl, ?_⟩
          subst heq
          refine ⟨rfl, rfl, rfl, rfl, by rw [Nat.add_zero], rfl, h1, ?_⟩
          intro ha
          by_contra hmne
          exact h2 ⟨ha, hmne⟩
        · exact tail_case htail

lemma getD_lt_mem : ∀ (l : List α) (i : Nat) (d : α), i < l.length →
    l.getD i d ∈ l := by
  intro l
  induction l with
  | nil => intro i d h; simp at h
  | cons a t ih =>
    intro i d h
    cases i with
    | zero => exact List.mem_cons_self _ _
    | succ j =>
      exact List.mem_cons_of_mem _ (ih j d (by simpa using h))

lemma getD_map_lt (f : α → β) : ∀ (l : List α) (i : Nat) (da : α) (db : β),
    i < l.length → (l.map f).getD i db = f (l.getD i da) := by
  intro l
  induction l with
  | nil => intro i da db h; simp at h
  | cons a t ih =>
    intro i da db h
    cases i with
    | zero => rfl
    | succ j => simpa using ih j da db (by simpa using h)

lemma rowsMean_singleton (r : List ℚ) : rowsMean [r] = r := by
  show vecSmul (1 / ((0 + 1 : Nat) : ℚ)) ([].foldl vecAdd r) = r
  simp [vecSmul]

lemma rowsMean_pair (u v : List ℚ) :
    rowsMean [u, v] = List.zipWith (fun a b => (a + b) / 2) u v := by
  show vecSmul (1 / ((1 + 1 : Nat) : ℚ)) (vecAdd u v) = _
  rw [vecSmul, vecAdd, List.map_zipWith]
  congr 1
  funext a b
  push_cast
  ring

lemma length_vecAdd (u v : List ℚ) :
    (vecAdd u v).length = min u.length v.length := by
  simp [vecAdd]

lemma foldl_vecAdd_length {d : Nat} :
    ∀ (rs : List (List ℚ)) (r : List ℚ), r.length = d →
    (∀ x ∈ rs, x.length = d) → (rs.foldl vecAdd r).length = d := by
  intro rs
  induction rs with
  | nil => intro r hr _; simpa using hr
  | cons x t ih =>
    intro r hr hall
    have hx : x.length = d := hall x (List.mem_cons_self _ _)
    have : (vecAdd r x).length = d := by
      rw [length_vecAdd, hr, hx]
      exact Nat.min_self d
    exact ih (vecAdd r x) this (fun y hy => hall y (List.mem_cons_of_mem _ hy))

lemma rowsMean_length {d : Nat} (rows : List (List ℚ)) (hne : rows ≠ [])
    (h : ∀ r ∈ rows, r.length = d) : (rowsMean rows).length = d := by
  match rows, hne with
  | r :: rs, _ =>
    show (vecSmul _ (rs.foldl vecAdd r)).length = d
    rw [vecSmul, List.length_map]
    exact foldl_vecAdd_length rs r (h r (List.mem_cons_self _ _))
      (fun x hx => h x (List.mem_cons_of_mem _ hx))

lemma history_component_length {d : Nat} (course_matrix : List (List ℚ))
    (id_to_index : String → Option Nat) (completed : List String)
    (hrows : ∀ row ∈ course_matrix, row.length = d)
    (hidx : ∀ cid i, id_to_index cid = some i → i < course_matrix.length)
    (hne : completed.filterMap id_to_index ≠ []) :
    (history_component course_matrix id_to_index completed).length = d := by
  unfold history_component
  apply rowsMean_length
  · simpa using hne
  · intro r hr
    obtain ⟨i, hi, hrow⟩ := List.mem_map.mp hr
    obtain ⟨cid, _, hcid⟩ := List.mem_filterMap.mp hi
    have hlt : i < course_matrix.length := hidx cid i hcid
    rw [← hrow]
    exact hrows _ (getD_lt_mem _ _ _ hlt)

lemma getMissingPrereqs_dedup (c : Course) (completed : List String) :
    getMissingPrereqs c completed.dedup = getMissingPrereqs c completed := by
  unfold getMissingPrereqs
  apply List.filter_congr
  intro p _
  rw [decide_eq_decide]
  simp [List.mem_dedup]

lemma candidate_items_dedup {sims : Nat → ℚ} {completed : List String}
    {allow : Bool} {pref : Option String} :
    ∀ (courses : List Course) (i0 : Nat),
    candidate_items sims completed.dedup allow pref courses i0 =
    candidate_items sims completed allow pref courses i0 := by
  intro courses
  induction courses with
  | nil => intro i0; rfl
  | cons course rest ih =>
    intro i0
    rw [candidate_items, candidate_items, ih (i0 + 1), getMissingPrereqs_dedup]
    by_cases h1 : course.course_id ∈ completed
    · rw [if_pos h1, if_pos (List.mem_dedup.mpr h1)]
    · rw [if_neg h1, if_neg (fun hc => h1 (List.mem_dedup.mp hc))]

lemma difficulty_weight_unrecognized (p : String) (h1 : p ≠ "easy")
    (h2 : p ≠ "medium") (h3 : p ≠ "hard") (d : Int) :
    difficulty_weight d (some p) = 1 := by
  show (if p = "" then 1
    else if p = "easy" then (if d ≤ 2 then (11 : ℚ)/10 else 9/10)
    else if p = "medium" then (if 2 ≤ d ∧ d ≤ 4 then (11 : ℚ)/10 else 9/10)
    else if p = "hard" then (if 4 ≤ d then (11 : ℚ)/10 else 9/10)
    else 1) = 1
  by_cases h0 : p = ""
  · rw [if_pos h0]
  · rw [if_neg h0, if_neg h1, if_neg h2, if_neg h3]

lemma candidate_items_unrecognized {sims : Nat → ℚ} {completed : List String}
    {allow : Bool} {p : String} (h1 : p ≠ "easy") (h2 : p ≠ "medium")
    (h3 : p ≠ "hard") :
    ∀ (courses : List Course) (i0 : Nat),
    candidate_items sims completed allow (some p) courses i0 =
    candidate_items sims completed allow none courses i0 := by
  intro courses
  induction courses with
  | nil => intro i0; rfl
  | cons course rest ih =>
    intro i0
    rw [candidate_items, candidate_items, ih (i0 + 1),
      difficulty_weight_unrecognized p h1 h2 h3]
    rfl

instance {ε α : Type} [DecidableEq ε] [DecidableEq α] : DecidableEq (Except ε α) :=
  fun a b =>
  match a, b with
  | Except.ok x, Except.ok y =>
    if h : x = y then isTrue (by rw [h]) else isFalse (fun hc => h (Except.ok.inj hc))
  | Except.error e, Except.error f =>
    if h : e = f then isTrue (by rw [h]) else isFalse (fun hc => h (Except.error.inj hc))
  | Except.ok _, Except.error _ => isFalse (fun hc => Except.noConfusion hc)
  | Except.error _, Except.ok _ => isFalse (fun hc => Except.noConfusion hc)

lemma difficulty_weight_easy (d : Int) :
    difficulty_weight d (some "easy") = if d ≤ 2 then 11/10 else 9/10 := by
  simp [difficulty_weight]

lemma difficulty_weight_medium (d : Int) :
    difficulty_weight d (some "medium") =
      if 2 ≤ d ∧ d ≤ 4 then 11/10 else 9/10 := by
  simp [difficulty_weight]

lemma difficulty_weight_hard (d : Int) :
    difficulty_weight d (some "hard") = if 4 ≤ d then 11/10 else 9/10 := by
  simp [difficulty_weight]

/-- C3: no item returned by recommend_courses has a course_id that is a
member (exact string equality) of the input completed_course_ids. -/
theorem recommend_excludes_completed
    (cos : List ℚ → List ℚ → ℚ) (course_matrix : List (List ℚ))
    (student_vec : List ℚ) (courses : List Course)
    (id_to_index : String → Option Nat) (completed_course_ids : List String)
    (top_k : Int) (allow_future_courses : Bool)
    (preferred_difficulty : Option String) (item : ResultItem)
    (h : item ∈ recommend_courses cos course_matrix student_vec courses
      id_to_index completed_course_ids top_k allow_future_courses
      preferred_difficulty) :
    item.course_id ∉ completed_course_ids := by
  obtain ⟨j, c, hj, hid, -, -, -, -, -, hnot, -⟩ :=
    mem_candidate_items _ _ _ (mem_of_mem_recommend h)
  rw [hid]
  exact hnot

/-- C2: with allow_future_courses = false, every returned item has an
empty missing_prereqs list, and every returned item stems from a catalog
course all of whose prerequisites are in completed_course_ids — a course
with an unmet prerequisite never appears at any rank. -/
theorem recommend_prereq_gating
    (cos : List ℚ → List ℚ → ℚ) (course_matrix : List (List ℚ))
    (student_vec : List ℚ) (courses : List Course)
    (id_to_index : String → Option Nat) (completed_course_ids : List String)
    (top_k : Int) (preferred_difficulty : Option String) (item : ResultItem)
    (h : item ∈ recommend_courses cos course_matrix student_vec courses
      id_to_index completed_course_ids top_k false preferred_difficulty) :
    item.missing_prereqs = [] ∧
    ∃ c, c ∈ courses ∧ c.course_id = item.course_id ∧
      getMissingPrereqs c completed_course_ids = [] := by
  obtain ⟨j, c, hj, hid, -, -, -, -, hmiss, -, himp⟩ :=
    mem_candidate_items _ _ _ (mem_of_mem_recommend h)
  have hc : getMissingPrereqs c completed_course_ids = [] := himp rfl
  exact ⟨by rw [hmiss, hc], c, List.get?_mem hj, hid.symm, hc⟩

/-- C6: every returned item carries missing_prereqs equal to the sublist
of its course's declared prerequisite list consisting of prerequisites
not in completed_course_ids, in declared order. -/
theorem recommend_missing_prereqs_exact
    (cos : List ℚ → List ℚ → ℚ) (course_matrix : List (List ℚ))
    (student_vec : List ℚ) (courses : List Course)
    (id_to_index : String → Option Nat) (completed_course_ids : List String)
    (top_k : Int) (allow_future_courses : Bool)
    (preferred_difficulty : Option String) (item : ResultItem)
    (h : item ∈ recommend_courses cos course_matrix student_vec courses
      id_to_index completed_course_ids top_k allow_future_courses
      preferred_difficulty) :
    ∃ c, c ∈ courses ∧ item.course_id = c.course_id ∧
      item.missing_prereqs =
        c.prerequisites.filter (fun p => decide (p ∉ completed_course_ids)) := by
  obtain ⟨j, c, hj, hid, -, -, -, -, hmiss, -, -⟩ :=
    mem_candidate_items _ _ _ (mem_of_mem_recommend h)
  exact ⟨c, List.get?_mem hj, hid, hmiss⟩

/-- C5: every returned item's score is the similarity of the student
vector with its course's matrix row multiplied by the difficulty
multiplier, whose value table is the one of _difficulty_weight. -/
theorem recommend_score_formula
    (cos : List ℚ → List ℚ → ℚ) (course_matrix : List (List ℚ))
    (student_vec : List ℚ) (courses : List Course)
    (id_to_index : String → Option Nat) (completed_course_ids : List String)
    (top_k : Int) (allow_future_courses : Bool)
    (preferred_difficulty : Option String) (item : ResultItem)
    (hlen : course_matrix.length = courses.length)
    (h : item ∈ recommend_courses cos course_matrix student_vec courses
      id_to_index completed_course_ids top_k allow_future_courses
      preferred_difficulty) :
    (∃ i c, courses.get? i = some c ∧ item.course_id = c.course_id ∧
      item.difficulty = c.difficulty ∧
      item.score = cos student_vec (course_matrix.getD i []) *
        difficulty_weight c.difficulty preferred_difficulty) ∧
    (∀ d : Int, difficulty_weight d none = 1) ∧
    (∀ d : Int, difficulty_weight d (some "easy") =
      if d ≤ 2 then 11/10 else 9/10) ∧
    (∀ d : Int, difficulty_weight d (some "medium") =
      if 2 ≤ d ∧ d ≤ 4 then 11/10 else 9/10) ∧
    (∀ d : Int, difficulty_weight d (some "hard") =
      if 4 ≤ d then 11/10 else 9/10) := by
  refine ⟨?_, fun d => rfl, difficulty_weight_easy, difficulty_weight_medium,
    difficulty_weight_hard⟩
  obtain ⟨j, c, hj, hid, -, hdiff, -, hscore, -, -, -⟩ :=
    mem_candidate_items _ _ _ (mem_of_mem_recommend h)
  obtain ⟨hjlt, -⟩ := List.get?_eq_some.mp hj
  have hjm : j < course_matrix.length := by rw [hlen]; exact hjlt
  refine ⟨j, c, hj, hid, hdiff, ?_⟩
  rw [hscore, Nat.zero_add]
  show sims_row cos student_vec course_matrix j * _ = _
  rw [sims_row, getD_map_lt (cos student_vec) course_matrix j [] 0 hjm]

/-- C10: a preferred_difficulty outside easy, medium, hard (the empty
string included) gives multiplier 1.0 and makes recommend_courses behave
exactly as with no preference at all — it never fails because of it. -/
theorem unrecognized_difficulty_is_no_preference (p : String)
    (h1 : p ≠ "easy") (h2 : p ≠ "medium") (h3 : p ≠ "hard") :
    (∀ d : Int, difficulty_weight d (some p) = 1) ∧
    ∀ (cos : List ℚ → List ℚ → ℚ) (course_matrix : List (List ℚ))
      (student_vec : List ℚ) (courses : List Course)
      (id_to_index : String → Option Nat) (completed_course_ids : List String)
      (top_k : Int) (allow_future_courses : Bool),
      recommend_courses cos course_matrix student_vec courses id_to_index
        completed_course_ids top_k allow_future_courses (some p) =
      recommend_courses cos course_matrix student_vec courses id_to_index
        completed_course_ids top_k allow_future_courses none := by
  refine ⟨difficulty_weight_unrecognized p h1 h2 h3, ?_⟩
  intro cos course_matrix student_vec courses id_to_index completed top_k allow
  unfold recommend_courses ranked_candidates eligible_candidates
  rw [candidate_items_unrecognized h1 h2 h3]

/-- C9 (amended): the scorer and filter treat completed_course_ids purely
as a set — recommend_courses gives identical output on a duplicate-free
version of the list (the service pipeline as a whole does not, see the
counterexample). -/
theorem recommend_completed_set_semantics
    (cos : List ℚ → List ℚ → ℚ) (course_matrix : List (List ℚ))
    (student_vec : List ℚ) (courses : List Course)
    (id_to_index : String → Option Nat) (completed_course_ids : List String)
    (top_k : Int) (allow_future_courses : Bool)
    (preferred_difficulty : Option String) :
    recommend_courses cos course_matrix student_vec courses id_to_index
      completed_course_ids.dedup top_k allow_future_courses
      preferred_difficulty =
    recommend_courses cos course_matrix student_vec courses id_to_index
      completed_course_ids top_k allow_future_courses preferred_difficulty := by
  unfold recommend_courses ranked_candidates eligible_candidates
  rw [candidate_items_dedup]

/-- C1 (amended): for a non-negative top_k, recommend_courses returns the
prefix of length top_k of the candidate list stably sorted by descending
final score (ties keep catalog arrival order), its length is at most
top_k and at most the number of eligible candidates, top_k = 0 yields the
empty sequence, and a top_k at least the candidate count yields all
candidates; a negative top_k instead follows Python slice semantics (see
the counterexample). -/
theorem recommend_topk_spec
    (cos : List ℚ → List ℚ → ℚ) (course_matrix : List (List ℚ))
    (student_vec : List ℚ) (courses : List Course)
    (id_to_index : String → Option Nat) (completed_course_ids : List String)
    (allow_future_courses : Bool) (preferred_difficulty : Option String)
    (top_k : Int) (h : 0 ≤ top_k) :
    (ranked_candidates cos course_matrix student_vec courses
        completed_course_ids allow_future_courses preferred_difficulty).Perm
      (eligible_candidates cos course_matrix student_vec courses
        completed_course_ids allow_future_courses preferred_difficulty) ∧
    (ranked_candidates cos course_matrix student_vec courses
        completed_course_ids allow_future_courses
        preferred_difficulty).Pairwise (fun a b => b.score ≤ a.score) ∧
    (∀ a b : ResultItem, b.score ≤ a.score →
      [a, b].Sublist (eligible_candidates cos course_matrix student_vec
        courses completed_course_ids allow_future_courses
        preferred_difficulty) →
      [a, b].Sublist (ranked_candidates cos course_matrix student_vec
        courses completed_course_ids allow_future_courses
        preferred_difficulty)) ∧
    recommend_courses cos course_matrix student_vec courses id_to_index
        completed_course_ids top_k allow_future_courses preferred_difficulty =
      (ranked_candidates cos course_matrix student_vec courses
        completed_course_ids allow_future_courses
        preferred_difficulty).take top_k.toNat ∧
    (recommend_courses cos course_matrix student_vec courses id_to_index
        completed_course_ids top_k allow_future_courses
        preferred_difficulty).length ≤ top_k.toNat ∧
    (recommend_courses cos course_matrix student_vec courses id_to_index
        completed_course_ids top_k allow_future_courses
        preferred_difficulty).length ≤
      (eligible_candidates cos course_matrix student_vec courses
        completed_course_ids allow_future_courses
        preferred_difficulty).length ∧
    (top_k = 0 → recommend_courses cos course_matrix student_vec courses
      id_to_index completed_course_ids top_k allow_future_courses
      preferred_difficulty = []) ∧
    (((eligible_candidates cos course_matrix student_vec courses
        completed_course_ids allow_future_courses
        preferred_difficulty).length : Int) ≤ top_k →
      recommend_courses cos course_matrix student_vec courses id_to_index
        completed_course_ids top_k allow_future_courses preferred_difficulty =
      ranked_candidates cos course_matrix student_vec courses
        completed_course_ids allow_future_courses preferred_difficulty) := by
  have htake : recommend_courses cos course_matrix student_vec courses
      id_to_index completed_course_ids top_k allow_future_courses
      preferred_difficulty =
      (ranked_candidates cos course_matrix student_vec courses
        completed_course_ids allow_future_courses
        preferred_difficulty).take top_k.toNat := by
    unfold recommend_courses pyTake
    rw [if_pos h]
  have hlenr : (ranked_candidates cos course_matrix student_vec courses
      completed_course_ids allow_future_courses preferred_difficulty).length =
      (eligible_candidates cos course_matrix student_vec courses
        completed_course_ids allow_future_courses
        preferred_difficulty).length :=
    List.length_mergeSort _
  refine ⟨List.mergeSort_perm _ _, ?_, ?_, htake, ?_, ?_, ?_, ?_⟩
  · exact List.Pairwise.imp (fun hab => by simpa [score_desc] using hab)
      (List.sorted_mergeSort score_desc_trans score_desc_total _)
  · intro a b hba hsub
    exact List.pair_sublist_mergeSort score_desc_trans score_desc_total
      (by simpa [score_desc] using hba) hsub
  · rw [htake]; exact List.length_take_le _ _
  · rw [htake, ← hlenr]; exact List.length_take_le' _ _
  · intro h0; rw [htake, h0]; rfl
  · intro hle
    rw [htake]
    apply List.take_of_length_le
    rw [hlenr]
    omega

/-- C7: the orchestrator rejects a request whose completed_courses
contains any id absent from the id index, returning the UnknownCourseError
naming exactly the offending ids (with multiplicity, in order), and it
does so before any profile construction or scoring — the outcome is the
same whatever matrix, vectorizer and similarity kernel the service holds. -/
theorem service_rejects_unknown_ids
    (cos : List ℚ → List ℚ → ℚ) (st : ServiceState)
    (completed_courses interest_tags : List String)
    (preferred_difficulty : Option String) (allow_future_courses : Bool)
    (top_k : Int)
    (h : ∃ cid ∈ completed_courses, st.id_to_index cid = none) :
    service_recommend cos st completed_courses interest_tags
        preferred_difficulty allow_future_courses top_k =
      Except.error (RecError.unknownCourse (completed_courses.filter
        (fun cid => (st.id_to_index cid).isNone))) ∧
    ∀ (m : List (List ℚ)) (v : Vectorizer) (cos2 : List ℚ → List ℚ → ℚ),
      service_recommend cos2
          { courses := st.courses, course_matrix := m, vectorizer := v }
          completed_courses interest_tags preferred_difficulty
          allow_future_courses top_k =
        service_recommend cos st completed_courses interest_tags
          preferred_difficulty allow_future_courses top_k := by
  obtain ⟨cid, hcid, hnone⟩ := h
  have hne : completed_courses.filter
      (fun c => (st.id_to_index c).isNone) ≠ [] :=
    List.ne_nil_of_mem (List.mem_filter.mpr ⟨hcid, by rw [hnone]; rfl⟩)
  have hmain : service_recommend cos st completed_courses interest_tags
      preferred_difficulty allow_future_courses top_k =
      Except.error (RecError.unknownCourse (completed_courses.filter
        (fun c => (st.id_to_index c).isNone))) := by
    simp only [service_recommend]
    rw [if_pos hne]
  refine ⟨hmain, ?_⟩
  intro m v cos2
  have hidx : ServiceState.id_to_index
      { courses := st.courses, course_matrix := m, vectorizer := v } =
      st.id_to_index := rfl
  have hmain2 : service_recommend cos2
      { courses := st.courses, course_matrix := m, vectorizer := v }
      completed_courses interest_tags preferred_difficulty
      allow_future_courses top_k =
      Except.error (RecError.unknownCourse (completed_courses.filter
        (fun c => (st.id_to_index c).isNone))) := by
    simp only [service_recommend, hidx]
    rw [if_pos hne]
  rw [hmain, hmain2]

/-- C4: build_student_profile_vector returns the element-wise mean of the
history component and the interest component when both exist, the single
component when only one exists, the InvalidQuery failure when neither
exists, and on success always a row vector of the feature-space width. -/
theorem build_profile_spec
    (course_matrix : List (List ℚ)) (id_to_index : String → Option Nat)
    (completed_course_ids interest_tags : List String) (v : Vectorizer)
    (d : Nat)
    (hrows : ∀ row ∈ course_matrix, row.length = d)
    (htr : ∀ t : String, (v.transform_text t).length = d)
    (hidx : ∀ cid i, id_to_index cid = some i → i < course_matrix.length) :
    (completed_course_ids.filterMap id_to_index ≠ [] → interest_tags ≠ [] →
      build_student_profile_vector course_matrix id_to_index
          completed_course_ids interest_tags v =
        Except.ok (List.zipWith (fun a b => (a + b) / 2)
          (history_component course_matrix id_to_index completed_course_ids)
          (interest_component v interest_tags))) ∧
    (completed_course_ids.filterMap id_to_index ≠ [] → interest_tags = [] →
      build_student_profile_vector course_matrix id_to_index
          completed_course_ids interest_tags v =
        Except.ok (history_component course_matrix id_to_index
          completed_course_ids)) ∧
    (completed_course_ids.filterMap id_to_index = [] → interest_tags ≠ [] →
      build_student_profile_vector course_matrix id_to_index
          completed_course_ids interest_tags v =
        Except.ok (interest_component v interest_tags)) ∧
    (completed_course_ids.filterMap id_to_index = [] → interest_tags = [] →
      build_student_profile_vector course_matrix id_to_index
          completed_course_ids interest_tags v =
        Except.error RecError.invalidQuery) ∧
    (∀ res, build_student_profile_vector course_matrix id_to_index
        completed_course_ids interest_tags v = Except.ok res →
      res.length = d) := by
  have e1 : completed_course_ids.filterMap id_to_index ≠ [] →
      interest_tags ≠ [] →
      build_student_profile_vector course_matrix id_to_index
          completed_course_ids interest_tags v =
        Except.ok (List.zipWith (fun a b => (a + b) / 2)
          (history_component course_matrix id_to_index completed_course_ids)
          (interest_component v interest_tags)) := by
    intro hc ht
    simp only [build_student_profile_vector]
    rw [if_neg hc, if_neg ht]
    simp only [List.cons_append, List.nil_append]
    rw [if_neg (List.cons_ne_nil _ _), rowsMean_pair]
  have e2 : completed_course_ids.filterMap id_to_index ≠ [] →
      interest_tags = [] →
      build_student_profile_vector course_matrix id_to_index
          completed_course_ids interest_tags v =
        Except.ok (history_component course_matrix id_to_index
          completed_course_ids) := by
    intro hc ht
    simp only [build_student_profile_vector]
    rw [if_neg hc, if_pos ht]
    simp only [List.append_nil]
    rw [if_neg (List.cons_ne_nil _ _), rowsMean_singleton]
  have e3 : completed_course_ids.filterMap id_to_index = [] →
      interest_tags ≠ [] →
      build_student_profile_vector course_matrix id_to_index
          completed_course_ids interest_tags v =
        Except.ok (interest_component v interest_tags) := by
    intro hc ht
    simp only [build_student_profile_vector]
    rw [if_pos hc, if_neg ht]
    simp only [List.nil_append]
    rw [if_neg (List.cons_ne_nil _ _), rowsMean_singleton]
  have e4 : completed_course_ids.filterMap id_to_index = [] →
      interest_tags = [] →
      build_student_profile_vector course_matrix id_to_index
          completed_course_ids interest_tags v =
        Except.error RecError.invalidQuery := by
    intro hc ht
    simp only [build_student_profile_vector]
    rw [if_pos hc, if_pos ht]
    rfl
  refine ⟨e1, e2, e3, e4, ?_⟩
  intro res hres
  have hil : (interest_component v interest_tags).length = d := htr _
  by_cases hc : completed_course_ids.filterMap id_to_index = []
  · by_cases ht : interest_tags = []
    · rw [e4 hc ht] at hres
      exact Except.noConfusion hres
    · rw [e3 hc ht] at hres
      rw [← Except.ok.inj hres]
      exact hil
  · have hhl : (history_component course_matrix id_to_index
        completed_course_ids).length = d :=
      history_component_length course_matrix id_to_index
        completed_course_ids hrows hidx hc
    by_cases ht : interest_tags = []
    · rw [e2 hc ht] at hres
      rw [← Except.ok.inj hres]
      exact hhl
    · rw [e1 hc ht] at hres
      rw [← Except.ok.inj hres, List.length_zipWith, hhl, hil]
      exact Nat.min_self d

lemma build_profile_error_eq (course_matrix : List (List ℚ))
    (id_to_index : String → Option Nat)
    (completed_course_ids interest_tags : List String) (v : Vectorizer)
    (e : RecError)
    (h : build_student_profile_vector course_matrix id_to_index
      completed_course_ids interest_tags v = Except.error e) :
    e = RecError.invalidQuery := by
  simp only [build_student_profile_vector] at h
  by_cases hc : completed_course_ids.filterMap id_to_index = []
  · by_cases ht : interest_tags = []
    · rw [if_pos hc, if_pos ht] at h
      simp only [List.append_nil] at h
      rw [if_pos trivial] at h
      injection h with h2
      exact h2.symm
    · rw [if_pos hc, if_neg ht] at h
      simp only [List.nil_append] at h
      rw [if_neg (List.cons_ne_nil _ _)] at h
      exact Except.noConfusion h
  · by_cases ht : interest_tags = []
    · rw [if_neg hc, if_pos ht] at h
      simp only [List.append_nil] at h
      rw [if_neg (List.cons_ne_nil _ _)] at h
      exact Except.noConfusion h
    · rw [if_neg hc, if_neg ht] at h
      simp only [List.cons_append, List.nil_append] at h
      rw [if_neg (List.cons_ne_nil _ _)] at h
      exact Except.noConfusion h

lemma invalid_ne_unknown_message (ids : List String) :
    invalid_query_message ≠ unknown_courses_message ids := by
  intro h
  have h1 : invalid_query_message.data.head? = some (Char.ofNat 67) := by
    decide
  have h2 : (unknown_courses_message ids).data.head? = some (Char.ofNat 85) := by
    show (("Unknown completed course_ids: " : String) ++
      pyListRepr ids).data.head? = some (Char.ofNat 85)
    rw [String.data_append, List.head?_append]
    rw [show ("Unknown completed course_ids: " : String).data.head? =
      some (Char.ofNat 85) from by decide]
    rfl
  rw [h, h2] at h1
  injection h1 with h3
  exact absurd h3 (by decide)

/-- C8 (amended): every failure the pipeline raises carries the same
Python exception class, ValueError, so the kind alone does not tell the
two failures apart; they are distinguishable by their content — the
message of the no-signal failure differs from every unknown-ids
message. -/
theorem service_error_kinds
    (cos : List ℚ → List ℚ → ℚ) (st : ServiceState)
    (completed_courses interest_tags : List String)
    (preferred_difficulty : Option String) (allow_future_courses : Bool)
    (top_k : Int) (e : RecError)
    (h : service_recommend cos st completed_courses interest_tags
      preferred_difficulty allow_future_courses top_k = Except.error e) :
    e.pyClass = "ValueError" ∧
    ((e = RecError.invalidQuery ∧ e.message = invalid_query_message) ∨
     (∃ ids, e = RecError.unknownCourse ids ∧
       e.message = unknown_courses_message ids)) ∧
    (∀ ids, invalid_query_message ≠ unknown_courses_message ids) := by
  refine ⟨by cases e <;> rfl, ?_, invalid_ne_unknown_message⟩
  simp only [service_recommend] at h
  by_cases hu : completed_courses.filter
      (fun cid => (st.id_to_index cid).isNone) ≠ []
  · rw [if_pos hu] at h
    injection h with h2
    exact Or.inr ⟨_, h2.symm, by rw [← h2]; rfl⟩
  · rw [if_neg hu] at h
    rcases hb : build_student_profile_vector st.course_matrix st.id_to_index
        completed_courses interest_tags st.vectorizer with e2 | sv
    · rw [hb] at h
      injection h with h2
      have : e2 = RecError.invalidQuery :=
        build_profile_error_eq _ _ _ _ _ _ hb
      rw [this] at h2
      exact Or.inl ⟨h2.symm, by rw [← h2]; rfl⟩
    · rw [hb] at h
      exact Except.noConfusion h

lemma pyTake_neg (k : Int) (h : k < 0) (l : List α) :
    pyTake k l = l.take (l.length - (-k).toNat) := by
  unfold pyTake
  rw [if_neg (by omega)]

lemma idIndexAux_lt (cid : String) : ∀ (courses : List Course) (i0 i : Nat),
    idIndexAux cid courses i0 = some i → i < i0 + courses.length := by
  intro courses
  induction courses with
  | nil => intro i0 i h; exact absurd h (by simp [idIndexAux])
  | cons c rest ih =>
    intro i0 i h
    rw [idIndexAux] at h
    rcases hr : idIndexAux cid rest (i0 + 1) with _ | j
    · rw [hr] at h
      dsimp only at h
      by_cases hcid : c.course_id = cid
      · rw [if_pos hcid] at h
        injection h with h2
        simp only [List.length_cons]
        omega
      · rw [if_neg hcid] at h
        exact Option.noConfusion h
    · rw [hr] at h
      dsimp only at h
      injection h with h2
      have := ih (i0 + 1) j hr
      simp only [List.length_cons]
      omega

lemma build_id_index_map_lt (courses : List Course) (cid : String) (i : Nat)
    (h : build_id_index_map courses cid = some i) : i < courses.length := by
  have := idIndexAux_lt cid courses 0 i h
  omega

/-- The single eligible candidate of the sample call used by the
witnesses: catalog sampleCourses, completed CS101 and CS102,
allow_future_courses false. -/
def sampleItem : ResultItem :=
  { course_id := "CS201", course_name := "Algorithms", difficulty := 4,
    type := "major", score := 3/10, missing_prereqs := [] }

lemma sample_eligible_eq :
    eligible_candidates dotProduct sampleMatrix sampleStudentVec sampleCourses
      ["CS101", "CS102"] false none = [sampleItem] := by
  simp [eligible_candidates, sampleCourses, candidate_items, sims_row,
    sampleMatrix, sampleStudentVec, dotProduct, getMissingPrereqs,
    cs101, cs102, cs201, sampleItem, difficulty_weight]

lemma sample_recommend_eq :
    recommend_courses dotProduct sampleMatrix sampleStudentVec sampleCourses
      sampleState.id_to_index ["CS101", "CS102"] 5 false none = [sampleItem] := by
  show pyTake 5 ((eligible_candidates dotProduct sampleMatrix sampleStudentVec
    sampleCourses ["CS101", "CS102"] false none).mergeSort score_desc) =
    [sampleItem]
  rw [sample_eligible_eq, List.mergeSort_singleton]
  rfl

lemma sample_item_mem :
    sampleItem ∈ recommend_courses dotProduct sampleMatrix sampleStudentVec
      sampleCourses sampleState.id_to_index ["CS101", "CS102"] 5 false none := by
  rw [sample_recommend_eq]
  exact List.mem_singleton_self _

/-- A small concrete id index used by the duplicate-handling
counterexample. -/
def toyIndex : String → Option Nat :=
  fun cid =>
    if cid = "CS101" then some 0
    else if cid = "CS102" then some 1
    else none

/-- A small concrete course matrix used by the duplicate-handling
counterexample. -/
def toyMatrix : List (List ℚ) := [[1, 0], [0, 1]]

/-- C1 counterexample: recommend_courses with the negative top_k -1 and
two eligible candidates returns a non-empty list (Python slice semantics
keep all but the last item), refuting that every top_k ≤ 0 yields an
empty sequence and that len(result) ≤ top_k. -/
theorem recommend_topk_counterexample :
    (-1 : Int) ≤ 0 ∧
    recommend_courses dotProduct sampleMatrix sampleStudentVec [cs101, cs102]
      sampleState.id_to_index [] (-1) true none ≠ [] := by
  refine ⟨by decide, ?_⟩
  have he : (eligible_candidates dotProduct sampleMatrix sampleStudentVec
      [cs101, cs102] [] true none).length = 2 := by decide
  have hr : (ranked_candidates dotProduct sampleMatrix sampleStudentVec
      [cs101, cs102] [] true none).length = 2 := by
    show ((eligible_candidates dotProduct sampleMatrix sampleStudentVec
      [cs101, cs102] [] true none).mergeSort score_desc).length = 2
    rw [List.length_mergeSort]
    exact he
  have hlen : (recommend_courses dotProduct sampleMatrix sampleStudentVec
      [cs101, cs102] sampleState.id_to_index [] (-1) true none).length = 1 := by
    show (pyTake (-1) (ranked_candidates dotProduct sampleMatrix
      sampleStudentVec [cs101, cs102] [] true none)).length = 1
    rw [pyTake_neg (-1) (by decide), List.length_take, hr]
    decide
  intro hnil
  rw [hnil] at hlen
  exact absurd hlen (by decide)

/-- C8 counterexample: the no-signal failure and the unknown-ids failure
are raised under the same Python exception class (ValueError), so the
kind of the raised failure alone does not tell a caller which of the two
occurred, although the failures themselves differ. -/
theorem error_kind_counterexample :
    service_recommend dotProduct sampleState [] [] none false 5 =
      Except.error RecError.invalidQuery ∧
    service_recommend dotProduct sampleState ["UNKNOWN999"] [] none false 5 =
      Except.error (RecError.unknownCourse ["UNKNOWN999"]) ∧
    RecError.pyClass RecError.invalidQuery =
      RecError.pyClass (RecError.unknownCourse ["UNKNOWN999"]) ∧
    RecError.invalidQuery ≠ RecError.unknownCourse ["UNKNOWN999"] := by
  refine ⟨by decide, by decide, rfl, by decide⟩

/-- C9 counterexample: the service pipeline is not idempotent in
duplicated completed ids — a duplicated unknown id is reported with
multiplicity in the failure payload, and a duplicated known id changes
the history mean, hence the profile vector. -/
theorem duplicate_completed_not_idempotent :
    (["ZZZ", "ZZZ"] : List String).dedup = ["ZZZ"] ∧
    service_recommend dotProduct sampleState ["ZZZ", "ZZZ"] [] none false 5 =
      Except.error (RecError.unknownCourse ["ZZZ", "ZZZ"]) ∧
    service_recommend dotProduct sampleState ["ZZZ"] [] none false 5 =
      Except.error (RecError.unknownCourse ["ZZZ"]) ∧
    service_recommend dotProduct sampleState ["ZZZ", "ZZZ"] [] none false 5 ≠
      service_recommend dotProduct sampleState ["ZZZ"] [] none false 5 ∧
    build_student_profile_vector toyMatrix toyIndex
        ["CS101", "CS101", "CS102"] [] sampleVectorizer ≠
      build_student_profile_vector toyMatrix toyIndex
        ["CS101", "CS102"] [] sampleVectorizer := by
  refine ⟨by decide, by decide, by decide, by decide, ?_⟩
  simp [build_student_profile_vector, toyIndex, toyMatrix, history_component,
    rowsMean, vecAdd, vecSmul, List.filterMap]

/-- Witness for C1 at a concrete call with top_k = 5. -/
theorem recommend_topk_spec_witness :
    (0 : Int) ≤ 5 ∧
    recommend_courses dotProduct sampleMatrix sampleStudentVec sampleCourses
        sampleState.id_to_index ["CS101", "CS102"] 5 false none =
      (ranked_candidates dotProduct sampleMatrix sampleStudentVec sampleCourses
        ["CS101", "CS102"] false none).take ((5 : Int)).toNat :=
  ⟨by decide,
   (recommend_topk_spec dotProduct sampleMatrix sampleStudentVec sampleCourses
     sampleState.id_to_index ["CS101", "CS102"] false none 5
     (by decide)).2.2.2.1⟩

/-- Witness for C2 at a concrete call whose output is the single item
sampleItem. -/
theorem recommend_prereq_gating_witness :
    sampleItem ∈ recommend_courses dotProduct sampleMatrix sampleStudentVec
      sampleCourses sampleState.id_to_index ["CS101", "CS102"] 5 false none ∧
    (sampleItem.missing_prereqs = [] ∧
     ∃ c, c ∈ sampleCourses ∧ c.course_id = sampleItem.course_id ∧
       getMissingPrereqs c ["CS101", "CS102"] = []) :=
  ⟨sample_item_mem,
   recommend_prereq_gating dotProduct sampleMatrix sampleStudentVec
     sampleCourses sampleState.id_to_index ["CS101", "CS102"] 5 none
     sampleItem sample_item_mem⟩

/-- Witness for C3 at the same concrete call. -/
theorem recommend_excludes_completed_witness :
    sampleItem ∈ recommend_courses dotProduct sampleMatrix sampleStudentVec
      sampleCourses sampleState.id_to_index ["CS101", "CS102"] 5 false none ∧
    sampleItem.course_id ∉ (["CS101", "CS102"] : List String) :=
  ⟨sample_item_mem,
   recommend_excludes_completed dotProduct sampleMatrix sampleStudentVec
     sampleCourses sampleState.id_to_index ["CS101", "CS102"] 5 false none
     sampleItem sample_item_mem⟩

/-- Witness for C5 at the same concrete call. -/
theorem recommend_score_formula_witness :
    sampleMatrix.length = sampleCourses.length ∧
    sampleItem ∈ recommend_courses dotProduct sampleMatrix sampleStudentVec
      sampleCourses sampleState.id_to_index ["CS101", "CS102"] 5 false none ∧
    (∃ i c, sampleCourses.get? i = some c ∧
      sampleItem.course_id = c.course_id ∧
      sampleItem.difficulty = c.difficulty ∧
      sampleItem.score = dotProduct sampleStudentVec (sampleMatrix.getD i []) *
        difficulty_weight c.difficulty none) :=
  ⟨rfl, sample_item_mem,
   (recommend_score_formula dotProduct sampleMatrix sampleStudentVec
     sampleCourses sampleState.id_to_index ["CS101", "CS102"] 5 false none
     sampleItem rfl sample_item_mem).1⟩

/-- Witness for C6 at the same concrete call. -/
theorem recommend_missing_prereqs_exact_witness :
    sampleItem ∈ recommend_courses dotProduct sampleMatrix sampleStudentVec
      sampleCourses sampleState.id_to_index ["CS101", "CS102"] 5 false none ∧
    ∃ c, c ∈ sampleCourses ∧ sampleItem.course_id = c.course_id ∧
      sampleItem.missing_prereqs = c.prerequisites.filter
        (fun p => decide (p ∉ (["CS101", "CS102"] : List String))) :=
  ⟨sample_item_mem,
   recommend_missing_prereqs_exact dotProduct sampleMatrix sampleStudentVec
     sampleCourses sampleState.id_to_index ["CS101", "CS102"] 5 false none
     sampleItem sample_item_mem⟩

/-- Witness for C4 at a concrete call where both components exist. -/
theorem build_profile_spec_witness :
    (∀ row ∈ sampleMatrix, row.length = 2) ∧
    (∀ t : String, (sampleVectorizer.transform_text t).length = 2) ∧
    (∀ cid i, sampleState.id_to_index cid = some i →
      i < sampleMatrix.length) ∧
    ((["CS101"] : List String).filterMap sampleState.id_to_index ≠ [] →
      (["cs"] : List String) ≠ [] →
      build_student_profile_vector sampleMatrix sampleState.id_to_index
          ["CS101"] ["cs"] sampleVectorizer =
        Except.ok (List.zipWith (fun a b => (a + b) / 2)
          (history_component sampleMatrix sampleState.id_to_index ["CS101"])
          (interest_component sampleVectorizer ["cs"]))) :=
  ⟨by decide, fun t => rfl,
   fun cid i h => build_id_index_map_lt sampleCourses cid i h,
   (build_profile_spec sampleMatrix sampleState.id_to_index ["CS101"] ["cs"]
     sampleVectorizer 2 (by decide) (fun t => rfl)
     (fun cid i h => build_id_index_map_lt sampleCourses cid i h)).1⟩

/-- Witness for C7 at a concrete call with an unknown completed id. -/
theorem service_rejects_unknown_ids_witness :
    (∃ cid ∈ (["UNKNOWN999"] : List String),
      sampleState.id_to_index cid = none) ∧
    service_recommend dotProduct sampleState ["UNKNOWN999"] [] none false 5 =
      Except.error (RecError.unknownCourse
        ((["UNKNOWN999"] : List String).filter
          (fun cid => (sampleState.id_to_index cid).isNone))) :=
  ⟨by decide,
   (service_rejects_unknown_ids dotProduct sampleState ["UNKNOWN999"] []
     none false 5 (by decide)).1⟩

/-- Witness for C8 at a concrete failing call. -/
theorem service_error_kinds_witness :
    service_recommend dotProduct sampleState [] [] none false 5 =
      Except.error RecError.invalidQuery ∧
    RecError.pyClass RecError.invalidQuery = "ValueError" :=
  ⟨by decide,
   (service_error_kinds dotProduct sampleState [] [] none false 5
     RecError.invalidQuery (by decide)).1⟩

/-- Witness for C10 at the unrecognized preference "extreme". -/
theorem unrecognized_difficulty_witness :
    ("extreme" : String) ≠ "easy" ∧ ("extreme" : String) ≠ "medium" ∧
    ("extreme" : String) ≠ "hard" ∧
    (∀ d : Int, difficulty_weight d (some "extreme") = 1) :=
  ⟨by decide, by decide, by decide,
   (unrecognized_difficulty_is_no_preference "extreme" (by decide) (by decide)
     (by decide)).1⟩
